import Mathlib

/-!
Verification of the capacity admission filter and the snapshot-clone
provisioning workflow of the cinder repository.

Shallow embedding conventions:
* Python strings are `List Char`.
* Python numeric capacity values are exact rationals (`ℚ`); the sentinel
  strings `'infinite'` / `'unknown'` and Python `None` are explicit
  constructors of `PyVal`.
* Python 2 semantics apply to the driver (the code base predates Python 3
  support): `/` on two ints is floor division.
* Code that can raise is embedded in `Except PyErr`.
-/

namespace Cinder

/-- Python exception kinds that the embedded code can raise. -/
inductive PyErr where
  | keyError
  | typeError
  | valueError
  | indexError
  | invalidResults
  deriving DecidableEq, Repr

/-! ## capacity_filter.py -/

/-- A capacity field of a `host_state`: a number, one of the sentinel
strings `'infinite'` / `'unknown'`, or Python `None`. -/
inductive PyVal where
  | num (q : ℚ)
  | infiniteS
  | unknownS
  | pynone
  deriving DecidableEq, Repr

/-- `host_state` as read by `CapacityFilter.host_passes`. -/
structure HostState where
  host : List Char
  free_capacity_gb : PyVal
  total_capacity_gb : PyVal
  reserved_percentage : ℤ

/-- The `filter_properties` fields read by `host_passes`:
`vol_exists_on` (may be absent, i.e. `none`) and `size`. -/
structure FilterProps where
  vol_exists_on : Option (List Char)
  size : ℚ

/-- Python `float(x)` on a capacity value: numeric passes through,
`None` raises `TypeError`, the sentinel strings raise `ValueError`
(neither sentinel is a valid float literal). -/
def pyFloat : PyVal → Except PyErr ℚ
  | .num q => .ok q
  | .pynone => .error .typeError
  | .infiniteS => .error .valueError
  | .unknownS => .error .valueError

/-- Extract the numeric value for use in arithmetic; a non-numeric
operand of `-` would raise `TypeError` in Python. -/
def pyNum : PyVal → Except PyErr ℚ
  | .num q => .ok q
  | _ => .error .typeError

/-- `CapacityFilter.host_passes(host_state, filter_properties)`,
embedded line by line:
1. `host_state.host == filter_properties.get('vol_exists_on')` → `True`;
2. `free_capacity_gb is None` → `False`;
3. `reserved = float(reserved_percentage) / 100`;
4. free space sentinel → `True`;
5. total space sentinel → `reserved == 0`;
6. `total = float(total_space)`; `total <= 0` → `False`;
7. `free = free_space - math.floor(total * reserved)`; return
   `free >= volume_size`. -/
def host_passes (h : HostState) (p : FilterProps) : Except PyErr Bool :=
  if p.vol_exists_on = some h.host then .ok true
  else if h.free_capacity_gb = .pynone then .ok false
  else
    let reserved : ℚ := (h.reserved_percentage : ℚ) / 100
    if h.free_capacity_gb = .infiniteS ∨ h.free_capacity_gb = .unknownS then
      .ok true
    else if h.total_capacity_gb = .infiniteS ∨ h.total_capacity_gb = .unknownS then
      if reserved = 0 then .ok true else .ok false
    else
      match pyFloat h.total_capacity_gb with
      | .error e => .error e
      | .ok total =>
        if total ≤ 0 then .ok false
        else
          match pyNum h.free_capacity_gb with
          | .error e => .error e
          | .ok free_space =>
            let free : ℚ := free_space - ((⌊total * reserved⌋ : ℤ) : ℚ)
            .ok (decide (free ≥ p.size))

/-! ## primarydata.py -/

/-- Python `str.split(sep)` on a single-character separator, keeping
empty pieces; `str.rsplit(sep)` with no maxsplit yields the same list. -/
def splitSep (c : Char) : List Char → List (List Char)
  | [] => [[]]
  | x :: xs =>
    let r := splitSep c xs
    if x = c then [] :: r else (x :: r.headI) :: r.tail

/-- Does the first list occur at the head of the second? -/
def leadsWith : List Char → List Char → Bool
  | [], _ => true
  | _ :: _, [] => false
  | a :: as, b :: bs => a == b && leadsWith as bs

/-- Python substring membership `needle in hay`. -/
def containsSub (needle : List Char) : List Char → Bool
  | [] => needle.isEmpty
  | x :: xs => leadsWith needle (x :: xs) || containsSub needle xs

/-- One step of posix `os.path.join`: a component starting with `/`
resets the path; otherwise a `/` is inserted unless one already ends the
accumulated path. -/
def joinOne (p b : List Char) : List Char :=
  if leadsWith ['/'] b then b
  else if p = [] ∨ p.getLast? = some '/' then p ++ b
  else p ++ '/' :: b

/-- `os.path.join(p, *bs)`. -/
def joinPath (p : List Char) (bs : List (List Char)) : List Char :=
  bs.foldl joinOne p

/-- `DATASPHERE_PDFS_PATH = '/mnt/pdfs'`. -/
def pdfsPath : List Char := "/mnt/pdfs".toList

/-- The portal mount marker tested with `'data-portal' in share`. -/
def portalMarker : List Char := "data-portal".toList

/-- The QoS spec key `'PD-objective'` read by the workflow. -/
def pdObjectiveKey : List Char := "PD-objective".toList

/-- `oslo_utils.units.Gi` = 1024³. -/
def units_Gi : ℕ := 2 ^ 30

/-- `_is_file_size_equal(path, size)`: the file's reported virtual size
in bytes divided by `units.Gi` — Python 2 floor division on ints —
compared with `size` for exact equality. -/
def is_file_size_equal (virtual_size : ℕ) (size : ℕ) : Bool :=
  let virt_size := virtual_size / units_Gi
  virt_size == size

/-- A volume record: only the fields the embedded code reads. -/
structure Volume where
  id : List Char
  size : ℕ
  volume_type_id : Option (List Char)
  provider_location : List Char

/-- A snapshot record with its source volume. -/
structure Snapshot where
  name : List Char
  volume : Volume

/-- A volume type row: the embedded code reads only `qos_specs_id`. -/
structure VolumeType where
  qos_specs_id : Option (List Char)

/-- A backend objective: human-readable name and backend uuid
(`objective['name']`, `objective['uoid']['uuid']`). -/
structure Objective where
  name : List Char
  uuid : List Char
  deriving DecidableEq, Repr

/-- Result of `_get_volume_qos_specs`: a dict (possibly empty) or
Python `None`. -/
inductive QSpecs where
  | dict (entries : List (List Char × List Char))
  | pynone
  deriving DecidableEq, Repr

/-- The workflow's external collaborators: the volume-type table behind
`volume_types.get_volume_type`, the specs dict of each existing QoS row
behind `qos_specs.get_qos_specs(...)['specs']`, the backend objective
catalog, the volume's local mount path, and the virtual size
`qemu_img_info` reports before and after the one possible resize. -/
structure Env where
  volume_types : List Char → Option VolumeType
  qos_specs_tbl : List Char → List (List Char × List Char)
  objectives : List Objective
  local_path : List Char
  virt_size_before : ℕ
  virt_size_after : ℕ

/-- Python dict subscription `d[key]` on an association list:
`KeyError` when absent. -/
def dictGet (d : List (List Char × List Char)) (key : List Char) :
    Except PyErr (List Char) :=
  match d.find? (fun kv => kv.1 == key) with
  | some kv => .ok kv.2
  | none => .error .keyError

/-- `qos_specs['PD-objective']` where `qos_specs` may be Python `None`
(subscribing `None` raises `TypeError`). -/
def qspecsGet (q : QSpecs) (key : List Char) : Except PyErr (List Char) :=
  match q with
  | .pynone => .error .typeError
  | .dict d => dictGet d key

/-- `_get_volume_qos_specs(volume)`: `{}` without a volume type or for
an unknown type, `None` for a type without a QoS association, else the
specs dict of the associated QoS row. -/
def get_volume_qos_specs (env : Env) (volume : Volume) : QSpecs :=
  match volume.volume_type_id with
  | none => .dict []
  | some type_id =>
    match env.volume_types type_id with
    | none => .dict []
    | some volume_type =>
      match volume_type.qos_specs_id with
      | none => .pynone
      | some qos_id => .dict (env.qos_specs_tbl qos_id)

/-- `_get_objective_uuid(name)`: linear scan of the full objective
listing for an exact name match; the first match's uuid, or implicitly
Python `None` when nothing matches. -/
def get_objective_uuid (objectives : List Objective) (name : List Char) :
    Option (List Char) :=
  match objectives.find? (fun o => o.name == name) with
  | some o => some o.uuid
  | none => none

/-- `provider_location.rsplit(':')[1]`; `none` models the `IndexError`
a colon-free location would raise. -/
def provider_location_share (pl : List Char) : Option (List Char) :=
  (splitSep ':' pl).get? 1

/-- Backend/OS calls the snapshot operations issue, in order. -/
inductive Call where
  | clone (src dst : List Char)
  | chmod (path : List Char)
  | set_objective (share file : List Char) (objective_uuid : Option (List Char))
  | set_rw_permissions (path : List Char)
  | resize_image (path : List Char) (sizeGB : ℕ)
  deriving DecidableEq, Repr

/-- The inline share normalization shared verbatim by `create_snapshot`
and `create_volume_from_snapshot`: drop three split pieces when the
portal marker occurs in the share, else drop one. -/
def normalizedShare (share0 : List Char) : List (List Char) :=
  if containsSub portalMarker share0
  then (splitSep '/' share0).drop 3
  else (splitSep '/' share0).drop 1

/-- `create_snapshot(snapshot)`: the path computation and the backend
calls it issues (clone, then the permission fix). -/
def create_snapshot (snapshot : Snapshot) : List Call × Except PyErr Unit :=
  match provider_location_share snapshot.volume.provider_location with
  | none => ([], .error .indexError)
  | some share0 =>
    let share := normalizedShare share0
    let base_path := joinPath pdfsPath share
    let src_path := joinPath base_path ["volume-".toList ++ snapshot.volume.id]
    let dst_path := joinPath base_path [snapshot.name]
    ([Call.clone src_path dst_path, Call.chmod dst_path], .ok ())

/-- `create_volume_from_snapshot(volume, snapshot)`, with the trace of
external calls it makes. Python 2 details embedded: `rsplit` equals
`split` without maxsplit; `[1]` raises `IndexError` on a colon-free
location; `self._set_objective(*share, file=..., objective_uuid=...)`
unpacks the normalized share list positionally and raises `TypeError`
unless that list has exactly one element. On success the model returns
the `provider_location` value of the result dict. -/
def create_volume_from_snapshot (env : Env) (volume : Volume)
    (snapshot : Snapshot) : List Call × Except PyErr (List Char) :=
  let src_provider := snapshot.volume.provider_location
  match provider_location_share src_provider with
  | none => ([], .error .indexError)
  | some share0 =>
    match qspecsGet (get_volume_qos_specs env volume) pdObjectiveKey with
    | .error e => ([], .error e)
    | .ok objective_name =>
      let objective_uuid := get_objective_uuid env.objectives objective_name
      let share := normalizedShare share0
      let base_path := joinPath pdfsPath share
      let src_path := joinPath base_path [snapshot.name]
      let dst_path := joinPath base_path ["volume-".toList ++ volume.id]
      let calls0 := [Call.clone src_path dst_path, Call.chmod dst_path]
      match share with
      | [s] =>
        let fileArg := joinPath ['/'] ["volume-".toList ++ volume.id]
        let calls1 := calls0 ++ [Call.set_objective s fileArg objective_uuid]
        let calls2 := calls1 ++ [Call.set_rw_permissions env.local_path]
        if is_file_size_equal env.virt_size_before volume.size then
          (calls2, .ok src_provider)
        else
          let calls3 := calls2 ++ [Call.resize_image env.local_path volume.size]
          if is_file_size_equal env.virt_size_after volume.size then
            (calls3, .ok src_provider)
          else
            (calls3, .error .invalidResults)
      | _ => (calls0, .error .typeError)

/-- Number of resize calls in a trace. -/
def countResize : List Call → ℕ
  | [] => 0
  | .resize_image _ _ :: rest => countResize rest + 1
  | _ :: rest => countResize rest

/-- The spec's path-normalization rule, in its own words: strip the
first three separator-delimited segments when the portal marker occurs
in the share path, otherwise only the first (the bare leading
separator), and rejoin the remainder under the fixed base `/mnt/pdfs`. -/
def specNormalizePath (share0 : List Char) : List Char :=
  let pieces := splitSep '/' share0
  let kept := if containsSub portalMarker share0 then pieces.drop 3 else pieces.drop 1
  joinPath pdfsPath kept

end Cinder

namespace Cinder

/-- C4: when the volume already exists on the host, `host_passes` is
`True` unconditionally. -/
theorem host_passes_existing (h : HostState) (p : FilterProps)
    (hex : p.vol_exists_on = some h.host) :
    host_passes h p = .ok true := by
  unfold host_passes
  rw [if_pos hex]

/-- Witness for `host_passes_existing`: a host whose `free_capacity_gb`
is `None` still passes when the volume already lives there. -/
theorem host_passes_existing_witness :
    host_passes
      ⟨['h'], .pynone, .pynone, 50⟩
      ⟨some ['h'], 1⟩ = .ok true :=
  host_passes_existing ⟨['h'], .pynone, .pynone, 50⟩ ⟨some ['h'], 1⟩ rfl

/-- C3: for a host with numeric free and total capacity, positive total,
not already holding the volume, the filter passes exactly when
`free − ⌊total × reservedPercentage / 100⌋ ≥ size` (boundary equality
passes, since the comparison is `≥`). -/
theorem host_passes_numeric (h : HostState) (p : FilterProps) (f t : ℚ)
    (hf : h.free_capacity_gb = .num f) (ht : h.total_capacity_gb = .num t)
    (htpos : 0 < t) (hne : p.vol_exists_on ≠ some h.host) :
    host_passes h p =
      .ok (decide (f - ((⌊t * (h.reserved_percentage : ℚ) / 100⌋ : ℤ) : ℚ) ≥ p.size)) := by
  unfold host_passes
  rw [if_neg hne, if_neg (by simp [hf]), if_neg (by simp [hf]),
    if_neg (by simp [ht]), ht]
  simp only [pyFloat, pyNum, hf]
  rw [if_neg (by exact not_le.mpr htpos)]
  rw [mul_div_assoc]

/-- Witness for `host_passes_numeric` at the spec's example:
total = 100, reserved = 10 %, free = 50 → a request of 40 passes and a
request of 41 fails. -/
theorem host_passes_numeric_witness :
    host_passes ⟨['h'], .num 50, .num 100, 10⟩ ⟨none, 40⟩ = .ok true ∧
    host_passes ⟨['h'], .num 50, .num 100, 10⟩ ⟨none, 41⟩ = .ok false := by
  constructor
  · rw [host_passes_numeric ⟨['h'], .num 50, .num 100, 10⟩ ⟨none, 40⟩ 50 100
      rfl rfl (by norm_num) (by simp)]
    norm_num
  · rw [host_passes_numeric ⟨['h'], .num 50, .num 100, 10⟩ ⟨none, 41⟩ 50 100
      rfl rfl (by norm_num) (by simp)]
    norm_num

/-- C6: numeric free capacity with a sentinel (`'infinite'`/`'unknown'`)
total capacity: the filter passes exactly when the reserved percentage
is zero, independently of the free capacity and the requested size. -/
theorem host_passes_sentinel_total (h : HostState) (p : FilterProps) (f : ℚ)
    (hf : h.free_capacity_gb = .num f)
    (ht : h.total_capacity_gb = .infiniteS ∨ h.total_capacity_gb = .unknownS)
    (hne : p.vol_exists_on ≠ some h.host) :
    (h.reserved_percentage = 0 → host_passes h p = .ok true) ∧
    (0 < h.reserved_percentage → host_passes h p = .ok false) := by
  unfold host_passes
  rw [if_neg hne, if_neg (by simp [hf]), if_neg (by simp [hf]), if_pos ht]
  constructor
  · intro h0
    rw [if_pos (by rw [h0]; norm_num)]
  · intro hpos
    rw [if_neg]
    rw [div_eq_zero_iff]
    push_neg
    constructor
    · exact_mod_cast hpos.ne'
    · norm_num

/-- Witness for `host_passes_sentinel_total`: with `total = 'infinite'`,
reserved 0 % passes and reserved 5 % fails. -/
theorem host_passes_sentinel_total_witness :
    host_passes ⟨['h'], .num 50, .infiniteS, 0⟩ ⟨none, 40⟩ = .ok true ∧
    host_passes ⟨['h'], .num 50, .infiniteS, 5⟩ ⟨none, 40⟩ = .ok false :=
  ⟨(host_passes_sentinel_total ⟨['h'], .num 50, .infiniteS, 0⟩ ⟨none, 40⟩ 50
      rfl (Or.inl rfl) (by simp)).1 rfl,
   (host_passes_sentinel_total ⟨['h'], .num 50, .infiniteS, 5⟩ ⟨none, 40⟩ 50
      rfl (Or.inl rfl) (by simp)).2 (by norm_num)⟩

/-- C5: whenever `total_capacity_gb` is numeric or a sentinel (never
`None`), `host_passes` returns a boolean and raises no exception,
whatever the free capacity, the reserved percentage and the request. -/
theorem host_passes_total_fun (h : HostState) (p : FilterProps)
    (ht : h.total_capacity_gb ≠ .pynone) :
    ∃ b, host_passes h p = .ok b := by
  unfold host_passes
  by_cases hex : p.vol_exists_on = some h.host
  · exact ⟨true, by rw [if_pos hex]⟩
  rw [if_neg hex]
  rcases hfv : h.free_capacity_gb with q | _ | _ | _
  · rw [if_neg (by simp), if_neg (by simp)]
    by_cases hts : h.total_capacity_gb = .infiniteS ∨ h.total_capacity_gb = .unknownS
    · rw [if_pos hts]
      split_ifs <;> exact ⟨_, rfl⟩
    · rw [if_neg hts]
      rcases htv : h.total_capacity_gb with q2 | _ | _ | _
      · simp only [pyFloat, pyNum]
        split_ifs <;> exact ⟨_, rfl⟩
      · exact absurd (Or.inl htv) hts
      · exact absurd (Or.inr htv) hts
      · exact absurd htv ht
  · exact ⟨true, by simp⟩
  · exact ⟨true, by simp⟩
  · exact ⟨false, by simp⟩

/-- Witness for `host_passes_total_fun` at a concrete state. -/
theorem host_passes_total_fun_witness :
    ∃ b, host_passes ⟨['h'], .unknownS, .num 0, 3⟩ ⟨none, 7⟩ = .ok b :=
  host_passes_total_fun ⟨['h'], .unknownS, .num 0, 3⟩ ⟨none, 7⟩ (by simp)

/-! ### Split helper lemmas -/

theorem splitSep_ne_nil (c : Char) (l : List Char) : splitSep c l ≠ [] := by
  cases l with
  | nil => exact fun h => List.noConfusion h
  | cons x xs =>
    unfold splitSep
    split_ifs <;> exact fun h => List.noConfusion h

theorem splitSep_cons_sep (c : Char) (rest : List Char) :
    splitSep c (c :: rest) = [] :: splitSep c rest := by
  simp [splitSep]

theorem splitSep_cons_of_ne (c x : Char) (xs : List Char) (hx : x ≠ c)
    (g : List Char) (gs : List (List Char)) (hs : splitSep c xs = g :: gs) :
    splitSep c (x :: xs) = (x :: g) :: gs := by
  simp [splitSep, hs, hx]

theorem splitSep_of_not_mem (c : Char) (l : List Char) (h : c ∉ l) :
    splitSep c l = [l] := by
  induction l with
  | nil => rfl
  | cons x xs ih =>
    have hx : x ≠ c := fun he => h (he ▸ List.mem_cons_self x xs)
    have hxs : c ∉ xs := fun hm => h (List.mem_cons_of_mem x hm)
    exact splitSep_cons_of_ne c x xs hx xs [] (ih hxs)

theorem splitSep_append (c : Char) (a rest : List Char) (ha : c ∉ a) :
    splitSep c (a ++ c :: rest) = a :: splitSep c rest := by
  induction a with
  | nil => simpa using splitSep_cons_sep c rest
  | cons x xs ih =>
    have hx : x ≠ c := fun he => ha (he ▸ List.mem_cons_self x xs)
    have hxs : c ∉ xs := fun hm => ha (List.mem_cons_of_mem x hm)
    exact splitSep_cons_of_ne c x (xs ++ c :: rest) hx xs (splitSep c rest) (ih hxs)

/-- C10: the workflow's parse of a `provider_location` splits the whole
string on `':'` and takes index 1: with exactly one colon this is the
full share path, but with two or more colons (e.g. an IPv6 host) it is
only the text between the first and the second colon. -/
theorem provider_parse_colon (hst p a b rest : List Char) :
    (':' ∉ hst → ':' ∉ p →
      provider_location_share (hst ++ ':' :: p) = some p) ∧
    (':' ∉ a → ':' ∉ b →
      provider_location_share (a ++ ':' :: (b ++ ':' :: rest)) = some b) := by
  constructor
  · intro h1 h2
    unfold provider_location_share
    rw [splitSep_append _ _ _ h1, splitSep_of_not_mem _ _ h2]
    rfl
  · intro h1 h2
    unfold provider_location_share
    rw [splitSep_append _ _ _ h1, splitSep_append _ _ _ h2]
    rfl

/-- Witness for `provider_parse_colon`: a one-colon location yields the
share path; an IPv6-style location with three colons yields the empty
piece between the first two colons, not the path. -/
theorem provider_parse_colon_witness :
    provider_location_share ("192.168.0.9".toList ++ ':' :: "/share1".toList) =
      some ("/share1".toList) ∧
    provider_location_share ("fe80".toList ++ ':' :: ([] ++ ':' :: "1:/share1".toList)) =
      some [] :=
  ⟨(provider_parse_colon ("192.168.0.9".toList) ("/share1".toList) [] [] []).1
      (by decide) (by decide),
   (provider_parse_colon [] [] ("fe80".toList) [] ("1:/share1".toList)).2
      (by decide) (by decide)⟩

/-- C8: `_get_objective_uuid` scans the catalog in order and returns
the identifier of the first entry whose name matches exactly; with no
match it returns Python `None`. -/
theorem resolve_objective_first_match (objectives : List Objective)
    (name : List Char) :
    ((∀ o ∈ objectives, o.name ≠ name) →
      get_objective_uuid objectives name = none) ∧
    (∀ (l1 l2 : List Objective) (o : Objective),
      objectives = l1 ++ o :: l2 → o.name = name →
      (∀ o' ∈ l1, o'.name ≠ name) →
      get_objective_uuid objectives name = some o.uuid) := by
  constructor
  · intro hall
    unfold get_objective_uuid
    rw [List.find?_eq_none.mpr (fun o ho => by simp [hall o ho])]
  · intro l1 l2 o hobj homatch hl1
    subst hobj
    unfold get_objective_uuid
    induction l1 with
    | nil =>
      rw [List.nil_append, List.find?_cons_of_pos _ (by simp [homatch])]
    | cons a as ih =>
      rw [List.cons_append,
        List.find?_cons_of_neg _ (by simp [hl1 a (List.mem_cons_self a as)])]
      exact ih fun o' ho' => hl1 o' (List.mem_cons_of_mem a ho')

/-- Witness for `resolve_objective_first_match`: against the catalog
`gold ↦ X, silver ↦ Y`, resolving `gold` yields `X`. -/
theorem resolve_objective_first_match_witness :
    get_objective_uuid
      [⟨"gold".toList, "X".toList⟩, ⟨"silver".toList, "Y".toList⟩]
      ("gold".toList) = some ("X".toList) :=
  (resolve_objective_first_match
      [⟨"gold".toList, "X".toList⟩, ⟨"silver".toList, "Y".toList⟩]
      ("gold".toList)).2
    [] [⟨"silver".toList, "Y".toList⟩] ⟨"gold".toList, "X".toList⟩
    rfl rfl (by simp)

/-- C7: both snapshot operations normalize the share path by the same
rule — drop the first three split pieces when the portal marker occurs
in the share, else only the first (the bare leading separator) — and
rebuild every file path under the fixed base `/mnt/pdfs`;
`specNormalizePath` states that rule in the spec's words, and the
clone/chmod paths of both operations are built on it. -/
theorem path_normalization_rule (env : Env) (volume : Volume)
    (snapshot : Snapshot) (share0 : List Char)
    (hp : provider_location_share snapshot.volume.provider_location = some share0) :
    (create_snapshot snapshot).1 =
      [Call.clone
         (joinPath (specNormalizePath share0) ["volume-".toList ++ snapshot.volume.id])
         (joinPath (specNormalizePath share0) [snapshot.name]),
       Call.chmod (joinPath (specNormalizePath share0) [snapshot.name])] ∧
    (∀ objective_name,
      qspecsGet (get_volume_qos_specs env volume) pdObjectiveKey = .ok objective_name →
      ∃ tail, (create_volume_from_snapshot env volume snapshot).1 =
        Call.clone (joinPath (specNormalizePath share0) [snapshot.name])
          (joinPath (specNormalizePath share0) ["volume-".toList ++ volume.id]) :: tail) := by
  have hspec : specNormalizePath share0 = joinPath pdfsPath (normalizedShare share0) := rfl
  constructor
  · rw [hspec]
    simp only [create_snapshot, hp]
  · intro objective_name hq
    rw [hspec]
    simp only [create_volume_from_snapshot, hp, hq]
    rcases hsh : normalizedShare share0 with _ | ⟨s1, _ | ⟨s2, srest⟩⟩ <;>
      simp only [hsh] <;> (try split_ifs) <;> exact ⟨_, rfl⟩

/-- Witness for `path_normalization_rule` on the location `h:/s1`. -/
theorem path_normalization_rule_witness :
    (create_snapshot ⟨"snap1".toList, ⟨"v1".toList, 1, none, "h:/s1".toList⟩⟩).1 =
      [Call.clone
         (joinPath (specNormalizePath ("/s1".toList)) ["volume-".toList ++ "v1".toList])
         (joinPath (specNormalizePath ("/s1".toList)) ["snap1".toList]),
       Call.chmod (joinPath (specNormalizePath ("/s1".toList)) ["snap1".toList])] :=
  (path_normalization_rule ⟨fun _ => none, fun _ => [], [], [], 0, 0⟩
      ⟨"v1".toList, 1, none, "h:/s1".toList⟩
      ⟨"snap1".toList, ⟨"v1".toList, 1, none, "h:/s1".toList⟩⟩
      ("/s1".toList) (by decide)).1

/-- C2: once the workflow reaches size verification, a matching cloned
size returns the unchanged source `provider_location` with no resize;
a mismatch issues exactly one resize and re-verifies once, returning
the unchanged location on success and `InvalidResults` on a second
mismatch; no call path of the workflow ever issues two resizes. -/
theorem resize_at_most_once (env : Env) (volume : Volume)
    (snapshot : Snapshot) (share0 objective_name s : List Char)
    (hp : provider_location_share snapshot.volume.provider_location = some share0)
    (hq : qspecsGet (get_volume_qos_specs env volume) pdObjectiveKey = .ok objective_name)
    (hs : normalizedShare share0 = [s]) :
    (is_file_size_equal env.virt_size_before volume.size = true →
      (create_volume_from_snapshot env volume snapshot).2 =
        .ok snapshot.volume.provider_location ∧
      countResize (create_volume_from_snapshot env volume snapshot).1 = 0) ∧
    (is_file_size_equal env.virt_size_before volume.size = false →
      countResize (create_volume_from_snapshot env volume snapshot).1 = 1 ∧
      (is_file_size_equal env.virt_size_after volume.size = true →
        (create_volume_from_snapshot env volume snapshot).2 =
          .ok snapshot.volume.provider_location) ∧
      (is_file_size_equal env.virt_size_after volume.size = false →
        (create_volume_from_snapshot env volume snapshot).2 =
          .error .invalidResults)) ∧
    (∀ (env' : Env) (volume' : Volume) (snapshot' : Snapshot),
      countResize (create_volume_from_snapshot env' volume' snapshot').1 ≤ 1) := by
  refine ⟨?_, ?_, ?_⟩
  · intro h1
    simp only [create_volume_from_snapshot, hp, hq, hs, h1]
    simp [countResize]
  · intro h1
    simp only [create_volume_from_snapshot, hp, hq, hs, h1]
    refine ⟨by rcases h2 : is_file_size_equal env.virt_size_after volume.size <;>
      simp [h2, countResize], ?_, ?_⟩
    · intro h2
      simp [h2]
    · intro h2
      simp [h2]
  · intro env' volume' snapshot'
    rcases hp' : provider_location_share snapshot'.volume.provider_location with _ | share0'
    · simp [create_volume_from_snapshot, hp', countResize]
    · rcases hq' : qspecsGet (get_volume_qos_specs env' volume') pdObjectiveKey with e | objn
      · simp [create_volume_from_snapshot, hp', hq', countResize]
      · rcases hsh : normalizedShare share0' with _ | ⟨s1, _ | ⟨s2, srest⟩⟩ <;>
          simp only [create_volume_from_snapshot, hp', hq', hsh] <;>
          (try split_ifs) <;> simp [countResize]

/-- Witness for `resize_at_most_once`: a one-GiB clone for a one-GB
volume needs no resize and returns the source location. -/
theorem resize_at_most_once_witness :
    (create_volume_from_snapshot
        ⟨fun _ => some ⟨some ("q1".toList)⟩,
         fun _ => [(pdObjectiveKey, "gold".toList)],
         [⟨"gold".toList, "X".toList⟩], "/tmp/f".toList, units_Gi, 0⟩
        ⟨"v1".toList, 1, some ("t1".toList), "h:/s1".toList⟩
        ⟨"snap1".toList, ⟨"v1".toList, 1, none, "h:/s1".toList⟩⟩).2 =
      .ok ("h:/s1".toList) :=
  ((resize_at_most_once
      ⟨fun _ => some ⟨some ("q1".toList)⟩,
       fun _ => [(pdObjectiveKey, "gold".toList)],
       [⟨"gold".toList, "X".toList⟩], "/tmp/f".toList, units_Gi, 0⟩
      ⟨"v1".toList, 1, some ("t1".toList), "h:/s1".toList⟩
      ⟨"snap1".toList, ⟨"v1".toList, 1, none, "h:/s1".toList⟩⟩
      ("/s1".toList) ("gold".toList) ("s1".toList)
      (by decide) rfl (by decide)).1 (by decide)).1

/-- C9: the size check `_is_file_size_equal` holds exactly when the
reported virtual size in bytes, divided by `units.Gi` = 2³⁰ with
Python 2 integer division, equals the requested size in GB — exact
equality of the quotient, no tolerance; the workflow applies this same
predicate before and after the one resize, so a clone whose quotient
never equals the requested size fails both checks and the workflow
raises `InvalidResults`. -/
theorem size_check_exact (virtual_size size : ℕ) :
    (is_file_size_equal virtual_size size = true ↔
      virtual_size / units_Gi = size) ∧
    (∀ (env : Env) (volume : Volume) (snapshot : Snapshot)
        (share0 objective_name s : List Char),
      provider_location_share snapshot.volume.provider_location = some share0 →
      qspecsGet (get_volume_qos_specs env volume) pdObjectiveKey = .ok objective_name →
      normalizedShare share0 = [s] →
      env.virt_size_before / units_Gi ≠ volume.size →
      env.virt_size_after / units_Gi ≠ volume.size →
      (create_volume_from_snapshot env volume snapshot).2 =
        .error .invalidResults) := by
  constructor
  · simp [is_file_size_equal]
  · intro env volume snapshot share0 objective_name s hp hq hs h1 h2
    have hb1 : is_file_size_equal env.virt_size_before volume.size = false := by
      simp [is_file_size_equal, h1]
    have hb2 : is_file_size_equal env.virt_size_after volume.size = false := by
      simp [is_file_size_equal, h2]
    simp only [create_volume_from_snapshot, hp, hq, hs, hb1, hb2]
    simp

/-- Witness for `size_check_exact`: a 3 GiB file passes the check for a
3 GB request, and a workflow whose clone reports 0 bytes before and
after the resize of a 1 GB volume fails with `InvalidResults`. -/
theorem size_check_exact_witness :
    is_file_size_equal 3221225472 3 = true ∧
    (create_volume_from_snapshot
        ⟨fun _ => some ⟨some ("q1".toList)⟩,
         fun _ => [(pdObjectiveKey, "gold".toList)],
         [], "/tmp/f".toList, 0, 0⟩
        ⟨"v1".toList, 1, some ("t1".toList), "h:/s1".toList⟩
        ⟨"snap1".toList, ⟨"v1".toList, 1, none, "h:/s1".toList⟩⟩).2 =
      .error .invalidResults :=
  ⟨(size_check_exact 3221225472 3).1.mpr (by decide),
   (size_check_exact 3221225472 3).2
      ⟨fun _ => some ⟨some ("q1".toList)⟩,
       fun _ => [(pdObjectiveKey, "gold".toList)],
       [], "/tmp/f".toList, 0, 0⟩
      ⟨"v1".toList, 1, some ("t1".toList), "h:/s1".toList⟩
      ⟨"snap1".toList, ⟨"v1".toList, 1, none, "h:/s1".toList⟩⟩
      ("/s1".toList) ("gold".toList) ("s1".toList)
      (by decide) rfl (by decide) (by decide) (by decide)⟩

/-- C1 counterexample: the claim says a volume whose QoS policy name
resolves to no backend objective — including a volume with no volume
type — completes the clone without aborting and triggers no objective
binding. On the code, a volume with no volume type makes
`_get_volume_qos_specs` return `{}` and the subscription
`qos_specs['PD-objective']` raise `KeyError` before any backend call;
and when the QoS name matches no objective, `_set_objective` is still
invoked, with a `None` identifier. -/
theorem no_binding_counterexample :
    create_volume_from_snapshot
        ⟨fun _ => none, fun _ => [], [⟨"gold".toList, "X".toList⟩],
         "/tmp/f".toList, units_Gi, 0⟩
        ⟨"v1".toList, 1, none, "h:/s1".toList⟩
        ⟨"snap1".toList, ⟨"v1".toList, 1, none, "h:/s1".toList⟩⟩ =
      ([], .error .keyError) ∧
    Call.set_objective ("s1".toList) ("/volume-v1".toList) none ∈
      (create_volume_from_snapshot
        ⟨fun _ => some ⟨some ("q1".toList)⟩,
         fun _ => [(pdObjectiveKey, "missing".toList)],
         [⟨"gold".toList, "X".toList⟩], "/tmp/f".toList, units_Gi, 0⟩
        ⟨"v1".toList, 1, some ("t1".toList), "h:/s1".toList⟩
        ⟨"snap1".toList, ⟨"v1".toList, 1, none, "h:/s1".toList⟩⟩).1 := by
  constructor
  · rfl
  · decide

/-- C1 amended: when the QoS policy name itself is readable but matches
no backend objective, the workflow does not abort at resolution — it
completes the clone and the subsequent steps, with only the size
verification able to fail — but the objective binding is still invoked,
with a null identifier, rather than skipped; a volume with no volume
type instead aborts with a `KeyError`, and one whose type has no QoS
association with a `TypeError`, before the clone. -/
theorem no_binding_amended (env : Env) (volume : Volume)
    (snapshot : Snapshot) (share0 objective_name s : List Char)
    (hp : provider_location_share snapshot.volume.provider_location = some share0)
    (hq : qspecsGet (get_volume_qos_specs env volume) pdObjectiveKey = .ok objective_name)
    (hno : ∀ o ∈ env.objectives, o.name ≠ objective_name)
    (hs : normalizedShare share0 = [s]) :
    (∃ src dst, Call.clone src dst ∈
      (create_volume_from_snapshot env volume snapshot).1) ∧
    Call.set_objective s (joinPath ['/'] ["volume-".toList ++ volume.id]) none ∈
      (create_volume_from_snapshot env volume snapshot).1 ∧
    ((create_volume_from_snapshot env volume snapshot).2 =
        .ok snapshot.volume.provider_location ∨
      (create_volume_from_snapshot env volume snapshot).2 =
        .error .invalidResults) ∧
    (∀ (env2 : Env) (volume2 : Volume) (snapshot2 : Snapshot) (share2 : List Char),
      provider_location_share snapshot2.volume.provider_location = some share2 →
      volume2.volume_type_id = none →
      create_volume_from_snapshot env2 volume2 snapshot2 =
        ([], .error .keyError)) ∧
    (∀ (env3 : Env) (volume3 : Volume) (snapshot3 : Snapshot)
        (share3 type_id : List Char) (vt : VolumeType),
      provider_location_share snapshot3.volume.provider_location = some share3 →
      volume3.volume_type_id = some type_id →
      env3.volume_types type_id = some vt →
      vt.qos_specs_id = none →
      create_volume_from_snapshot env3 volume3 snapshot3 =
        ([], .error .typeError)) := by
  have huuid : get_objective_uuid env.objectives objective_name = none := by
    unfold get_objective_uuid
    rw [List.find?_eq_none.mpr (fun o ho => by simp [hno o ho])]
  refine ⟨⟨joinPath (joinPath pdfsPath [s]) [snapshot.name],
           joinPath (joinPath pdfsPath [s]) ["volume-".toList ++ volume.id], ?_⟩,
          ?_, ?_, ?_, ?_⟩
  · simp only [create_volume_from_snapshot, hp, hq, hs]
    rcases hb1 : is_file_size_equal env.virt_size_before volume.size <;>
      rcases hb2 : is_file_size_equal env.virt_size_after volume.size <;>
      simp [hb1, hb2]
  · simp only [create_volume_from_snapshot, hp, hq, hs, huuid]
    rcases hb1 : is_file_size_equal env.virt_size_before volume.size <;>
      rcases hb2 : is_file_size_equal env.virt_size_after volume.size <;>
      simp [hb1, hb2]
  · simp only [create_volume_from_snapshot, hp, hq, hs]
    rcases hb1 : is_file_size_equal env.virt_size_before volume.size <;>
      rcases hb2 : is_file_size_equal env.virt_size_after volume.size <;>
      simp [hb1, hb2]
  · intro env2 volume2 snapshot2 share2 hp2 hnone
    simp [create_volume_from_snapshot, hp2, get_volume_qos_specs, hnone,
      qspecsGet, dictGet]
  · intro env3 volume3 snapshot3 share3 type_id vt hp3 htid hvt hqid
    simp [create_volume_from_snapshot, hp3, get_volume_qos_specs, htid, hvt,
      hqid, qspecsGet]

/-- Witness for `no_binding_amended` at a concrete volume whose QoS
name `missing` matches no objective in the catalog. -/
theorem no_binding_amended_witness :
    Call.set_objective ("s1".toList)
        (joinPath ['/'] ["volume-".toList ++ "v1".toList]) none ∈
      (create_volume_from_snapshot
        ⟨fun _ => some ⟨some ("q1".toList)⟩,
         fun _ => [(pdObjectiveKey, "missing".toList)],
         [⟨"gold".toList, "X".toList⟩], "/tmp/f".toList, units_Gi, 0⟩
        ⟨"v1".toList, 1, some ("t1".toList), "h:/s1".toList⟩
        ⟨"snap1".toList, ⟨"v1".toList, 1, none, "h:/s1".toList⟩⟩).1 :=
  (no_binding_amended
      ⟨fun _ => some ⟨some ("q1".toList)⟩,
       fun _ => [(pdObjectiveKey, "missing".toList)],
       [⟨"gold".toList, "X".toList⟩], "/tmp/f".toList, units_Gi, 0⟩
      ⟨"v1".toList, 1, some ("t1".toList), "h:/s1".toList⟩
      ⟨"snap1".toList, ⟨"v1".toList, 1, none, "h:/s1".toList⟩⟩
      ("/s1".toList) ("missing".toList) ("s1".toList)
      (by decide) rfl (by decide) (by decide)).2.1

end Cinder
